import Mathlib

/-!
Verification development for the SeamLang code-generation stage
(src/seam/code_generation/code_generation.cpp).  The C++ lowering pass is
shallowly embedded: LLVM IR entities (types, functions, basic blocks,
instructions, values) become inductive types, the `code_generation` object and
the `code_gen_visitor` become explicit state records, and every C++ function
that can throw becomes an `Except`-valued Lean function.  Definitions follow
the source line by line, including its quirks (the unused else body in
`visit(if_stat)`, the never-written variable map, the hard-coded
`float_operation = false`, the unconditional `CreateRetVoid` for constructor
functions).
-/

namespace Seam

/-- Source position, mirroring `utils::position` (line, column). -/
abbrev Pos := Nat × Nat

/-- Errors thrown by the code-generation stage.  `compilerError` models
`utils::compiler_exception` (which carries a `utils::position`);
`runtimeError` models a plain `std::runtime_error` (which carries none). -/
inductive CgError where
  | compilerError (pos : Pos) (msg : String)
  | runtimeError (msg : String)
deriving DecidableEq, Repr

/-- Built-in type tags of `ir::ast::type::built_in_type`.  The C++ enum can
also hold an out-of-range value, which falls into the `default:` branch of
`get_llvm_type`; `unrecognized n` represents such a value. -/
inductive built_in_type where
  | void_ | bool_
  | u8 | i8 | u16 | i16 | u32 | i32 | u64 | i64
  | string_ | f32 | f64
  | unrecognized (n : Nat)
deriving DecidableEq, Repr

/-- Value of an `ir::ast::type` node: a `std::variant` of a built-in tag or a
(unsupported) user-defined class type. -/
inductive TypeValue where
  | builtIn (t : built_in_type)
  | classTy (name : String)
deriving DecidableEq, Repr

/-- LLVM IR types.  LLVM uniques types inside one `LLVMContext`, so equality
of these values coincides with pointer identity of `llvm::Type*` objects
within one compilation. -/
inductive LLVMType where
  | voidTy
  | intTy (bits : Nat)
  | floatTy
  | doubleTy
  | ptrTy (pointee : LLVMType)
  | structTy (fields : List LLVMType)
  | funcTy (ret : LLVMType) (params : List LLVMType)

/-- Linkage of an LLVM function. -/
inductive Linkage where
  | external
  | internal
deriving DecidableEq, Repr

/-- Embedding of `code_generation::get_llvm_type`.  `size_type` is the
`code_generation` member used as the first field of the string struct.  The
known built-in tags map as in the C++ switch; the `default:` branch throws a
`compiler_exception` at the dummy position (0,0); the non-built-in variant
alternative throws a plain `std::runtime_error`. -/
def get_llvm_type (size_type : LLVMType) : TypeValue → Except CgError LLVMType
  | .builtIn .void_ => .ok .voidTy
  | .builtIn .bool_ => .ok (.intTy 1)
  | .builtIn .u8 | .builtIn .i8 => .ok (.intTy 8)
  | .builtIn .u16 | .builtIn .i16 => .ok (.intTy 16)
  | .builtIn .u32 | .builtIn .i32 => .ok (.intTy 32)
  | .builtIn .u64 | .builtIn .i64 => .ok (.intTy 64)
  | .builtIn .string_ => .ok (.structTy [size_type, .ptrTy (.intTy 8)])
  | .builtIn .f32 => .ok .floatTy
  | .builtIn .f64 => .ok .doubleTy
  | .builtIn (.unrecognized _) =>
      .error (.compilerError (0, 0) "internal compiler error: unknown type")
  | .classTy _ => .error (.runtimeError "TODO: class types are not supported")

/-- True exactly on the thirteen named enumerators of
`ir::ast::type::built_in_type` (false on out-of-range values). -/
def built_in_type.recognized : built_in_type → Bool
  | .unrecognized _ => false
  | _ => true

/-- Storage shape of a recognized built-in tag, following the spec sentence
that the signed/unsigned distinction is erased at the storage-type level:
two tags share a storage key exactly when they are the same tag or a
signed/unsigned pair of the same bit width. -/
def built_in_type.storageKey : built_in_type → Nat
  | .void_ => 0
  | .bool_ => 1
  | .u8 | .i8 => 8
  | .u16 | .i16 => 16
  | .u32 | .i32 => 32
  | .u64 | .i64 => 64
  | .string_ => 100
  | .f32 => 101
  | .f64 => 102
  | .unrecognized n => 1000 + n

/-- Result classifier: true when a lowering result is an
internal-compiler-error (a `compiler_exception`, which structurally carries a
source position). -/
def isCompilerErrorResult : Except CgError LLVMType → Bool
  | .error (.compilerError _ _) => true
  | _ => false

/-- Embedding of `ir::ast::expression::function_signature`.  Parameters are
reduced to their type descriptors (`param->var->type_`), the only part the
code generator reads.  `mangled_name` is populated by the type resolver for
non-extern signatures only (extern signatures are not mangled). -/
structure FunctionSignature where
  name : String
  mangled_name : String
  parameters : List TypeValue
  return_type : TypeValue
  is_extern : Bool
  attributes : List String
deriving DecidableEq, Repr

/-- Module-level name of the lowered function, as chosen by
`get_or_declare_function`: the declared name for extern signatures, the
mangled name otherwise. -/
def FunctionSignature.ir_name (s : FunctionSignature) : String :=
  if s.is_extern then s.name else s.mangled_name

/-- Arithmetic and comparison lexemes dispatched on by
`code_gen_visitor::visit(binary)`; `other n` stands for any other
`lexer::lexeme_type` value, which falls into the `default:` branch. -/
inductive BinOp where
  | symbol_add | symbol_minus | symbol_multiply | symbol_divide
  | symbol_eq | symbol_neq
  | symbol_lt | symbol_lteq | symbol_gt | symbol_gteq
  | other (n : Nat)
deriving DecidableEq, Repr

/-- The `IRBuilder` instruction forms reachable from `visit(binary)`
(`CreateFAdd`, `CreateAdd`, ...), together with the unsigned comparison forms
`icmp_ule` and `icmp_uge` that the spec's selection policy would use but the
source never emits. -/
inductive LLVMBinInstr where
  | fadd | add | fsub | sub | fmul | mul | fdiv | udiv | sdiv
  | fcmp_oeq | icmp_eq | fcmp_one | icmp_ne
  | fcmp_olt | icmp_ult | icmp_slt
  | fcmp_ole | icmp_ule | icmp_sle
  | fcmp_ogt | icmp_ugt | icmp_sgt
  | fcmp_oge | icmp_uge | icmp_sge
deriving DecidableEq, Repr

/-- Embedding of `llvm::Value*` results produced by expression lowering.
`slot` is the result of an `AllocaInst` (so `Value.isAlloca` models
`llvm::isa<llvm::AllocaInst>`), `instr` the result of any other instruction,
`func` an `llvm::Function*` (identified by module-level name, unique within a
module). -/
inductive Value where
  | constBool (b : Bool)
  | slot (id : Nat)
  | instr (id : Nat)
  | func (name : String)
deriving DecidableEq, Repr

/-- Model of `llvm::isa<llvm::AllocaInst>(v)`. -/
def Value.isAlloca : Value → Bool
  | .slot _ => true
  | _ => false

/-- Model of `llvm::isa<llvm::Function>(v)`. -/
def Value.isFunction : Value → Bool
  | .func _ => true
  | _ => false

/-- Instructions of a basic block.  Ids of instruction results are fresh
numbers handed out by the visitor state; block targets of branches are block
indices within the function. -/
inductive Instr where
  | alloca (id : Nat) (ty : LLVMType)
  | load (id : Nat) (src : Value)
  | store (val : Value) (target : Value)
  | callI (id : Nat) (callee : String) (args : List Value)
  | binI (id : Nat) (op : LLVMBinInstr) (lhs rhs : Value)
  | br (target : Nat)
  | condbr (cond : Value) (thenTarget elseTarget : Nat)
  | retI (v : Value)
  | retVoid

/-- Model of `llvm::Instruction::isTerminator`. -/
def Instr.isTerminator : Instr → Bool
  | .br _ => true
  | .condbr _ _ _ => true
  | .retI _ => true
  | .retVoid => true
  | _ => false

/-- Embedding of `llvm::Function`: name, function type, linkage and the
ordered list of basic blocks (each a list of instructions, see `Instr`). -/
structure LLVMFunction where
  name : String
  fty : LLVMType
  linkage : Linkage
  blocks : List (List Instr)

/-- Embedding of the `code_generation` object state: the `size_type` member,
the `function_type_map` cache, the functions registered in `llvm_module`
(in creation order) and the `constructor_functions` list (functions are
identified by their module-level name, which LLVM keeps unique). -/
structure CgState where
  size_type : LLVMType
  function_type_map : List (String × LLVMType)
  llvm_module : List LLVMFunction
  constructor_functions : List String

/-- Embedding of `llvm::FunctionType::isValidReturnType`: any first-class or
void type is a valid return type; function types are not. -/
def isValidReturnType : LLVMType → Bool
  | .funcTy _ _ => false
  | _ => true

/-- Embedding of `llvm::FunctionType::isValidArgumentType`: first-class types
only, so neither void nor function types. -/
def isValidArgumentType : LLVMType → Bool
  | .funcTy _ _ => false
  | .voidTy => false
  | _ => true

/-- Parameter loop of `get_llvm_function_type`: lower each parameter type in
order, failing with the invalid-parameter-type internal compiler error when a
lowered type is not a valid argument type. -/
def lower_param_types (size_type : LLVMType) (position : Pos) :
    List TypeValue → Except CgError (List LLVMType)
  | [] => .ok []
  | ty :: rest => do
      let param_type ← get_llvm_type size_type ty
      if !isValidArgumentType param_type then
        .error (.compilerError position "internal compiler error: invalid parameter type")
      else do
        let tys ← lower_param_types size_type position rest
        .ok (param_type :: tys)

/-- Embedding of `code_generation::get_llvm_function_type`.  The cache key is
`signature->mangled_name`, for extern and non-extern signatures alike. -/
def get_llvm_function_type (g : CgState) (position : Pos)
    (signature : FunctionSignature) : Except CgError (LLVMType × CgState) :=
  match g.function_type_map.lookup signature.mangled_name with
  | some ft => .ok (ft, g)
  | none => do
      let return_type ← get_llvm_type g.size_type signature.return_type
      if !isValidReturnType return_type then
        .error (.compilerError position "internal compiler error: invalid return type")
      else do
        let param_types ← lower_param_types g.size_type position signature.parameters
        let function_type := LLVMType.funcTy return_type param_types
        .ok (function_type,
          { g with function_type_map :=
              (signature.mangled_name, function_type) :: g.function_type_map })

/-- Lookup of a function by name in the module, as `llvm_module->getFunction`. -/
def CgState.findFunction (g : CgState) (name : String) : Option LLVMFunction :=
  g.llvm_module.find? (fun f => f.name == name)

/-- Embedding of `code_generation::get_or_declare_function`: fetch the module
function by its module-level name, or create it with the lowered function
type and external/internal linkage according to `is_extern`.  The created or
fetched function is identified by that name. -/
def get_or_declare_function (g : CgState) (position : Pos)
    (signature : FunctionSignature) : Except CgError (CgState × String) :=
  match g.findFunction signature.ir_name with
  | some _ => .ok (g, signature.ir_name)
  | none => do
      let (func_type, g1) ← get_llvm_function_type g position signature
      let linkage := if signature.is_extern then Linkage.external else Linkage.internal
      .ok ({ g1 with llvm_module :=
              g1.llvm_module ++ [⟨signature.ir_name, func_type, linkage, []⟩] },
           signature.ir_name)

/-- Expression nodes of the AST reaching `code_gen_visitor`.  Variables are
identified by the address of their `ir::ast::expression::variable` node,
modelled as a `Nat` id, together with the variable's declared type
(`var->type_`).  `symbol` is a `symbol_wrapper` holding a resolved symbol
whose signature the visitor dereferences.  Number literals are omitted: no
claim about the lowering depends on constant materialization. -/
inductive Expr where
  | boolLit (b : Bool)
  | varRef (var : Nat) (ty : TypeValue)
  | symbol (pos : Pos) (signature : FunctionSignature)
  | call (pos : Pos) (func : Expr) (args : List Expr)
  | binary (pos : Pos) (op : BinOp) (lhs rhs : Expr)

/-- Statement nodes of the AST reaching `code_gen_visitor`.  A
`normal_block` is visited transparently (children in place), so statement
bodies appear directly as `List Stmt`. -/
inductive Stmt where
  | expressionStat (e : Expr)
  | assignment (target fromE : Expr)
  | ret (value : Option Expr)
  | if_stat (condition : Expr) (main_body : List Stmt) (else_body : Option (List Stmt))
  | while_loop (condition : Expr) (body : List Stmt)

/-- State of one `code_gen_visitor` run plus its `IRBuilder`: the owning
`code_generation` object (`gen`), the function's basic blocks in creation
order, the builder's current insert block (`cur`, always at the end of that
block), the per-function variable-storage map, and a counter handing out
fresh instruction-result ids. -/
structure CGV where
  gen : CgState
  blocks : List (List Instr)
  cur : Nat
  var_map : List (Nat × Value)
  nextId : Nat

/-- Append an instruction at the builder's insert point (the end of the
current block), as the `IRBuilder` `Create*` calls do. -/
def CGV.appendInstr (s : CGV) (i : Instr) : CGV :=
  { s with blocks := s.blocks.set s.cur ((s.blocks.getD s.cur []) ++ [i]) }

/-- Model of `llvm::BasicBlock::Create(..., parent)`: a fresh empty block is
appended to the function; its index is returned.  The insert point does not
move. -/
def CGV.newBlock (s : CGV) : CGV × Nat :=
  ({ s with blocks := s.blocks ++ [[]] }, s.blocks.length)

/-- Model of `builder.SetInsertPoint(block)` (insertion at the block end). -/
def CGV.setInsert (s : CGV) (b : Nat) : CGV := { s with cur := b }

/-- Model of `block->getTerminator()`: the block's last instruction when it
is a terminator, otherwise none. -/
def CGV.blockTerminator (s : CGV) (b : Nat) : Option Instr :=
  match (s.blocks.getD b []).getLast? with
  | some i => if i.isTerminator then some i else none
  | none => none

/-- Hand out a fresh instruction-result id. -/
def CGV.freshId (s : CGV) : CGV × Nat := ({ s with nextId := s.nextId + 1 }, s.nextId)

/-- Operator dispatch of `code_gen_visitor::visit(binary)`.  In the source
`unsigned_operation` is a stub set to `false` (its intended computation is
commented out) and `float_operation` is likewise the constant `false` (the
float detection above it is commented out), so the selected instruction
follows those constants exactly as written. -/
def select_binary_op (op : BinOp) (pos : Pos) : Except CgError LLVMBinInstr :=
  let unsigned_operation := false
  let float_operation := false
  match op with
  | .symbol_add => .ok (if float_operation then .fadd else .add)
  | .symbol_minus => .ok (if float_operation then .fsub else .sub)
  | .symbol_multiply => .ok (if float_operation then .fmul else .mul)
  | .symbol_divide =>
      .ok (if float_operation then .fdiv
           else if unsigned_operation then .udiv else .sdiv)
  | .symbol_eq => .ok (if float_operation then .fcmp_oeq else .icmp_eq)
  | .symbol_neq => .ok (if float_operation then .fcmp_one else .icmp_ne)
  | .symbol_lt =>
      .ok (if float_operation then .fcmp_olt
           else if unsigned_operation then .icmp_ult else .icmp_slt)
  | .symbol_lteq =>
      .ok (if float_operation then .fcmp_ole
           else if unsigned_operation then .icmp_sle else .icmp_sle)
  | .symbol_gt =>
      .ok (if float_operation then .fcmp_ogt
           else if unsigned_operation then .icmp_ugt else .icmp_sgt)
  | .symbol_gteq =>
      .ok (if float_operation then .fcmp_oge
           else if unsigned_operation then .icmp_sge else .icmp_sge)
  | .other _ =>
      .error (.compilerError pos "internal compiler error: invalid binary operation")

mutual

/-- Expression lowering of `code_gen_visitor`.  Each case follows the
corresponding `visit` overload.  In `varRef`, the variable map is consulted
but — exactly as in the source — never written: a missed lookup allocates a
stack slot and produces it without recording it. -/
def lowerExpr (s : CGV) : Expr → Except CgError (CGV × Value)
  | .boolLit b => .ok (s, .constBool b)
  | .varRef var ty =>
      match s.var_map.lookup var with
      | some v => .ok (s, v)
      | none => do
          let llvm_ty ← get_llvm_type s.gen.size_type ty
          let (s1, id) := s.freshId
          .ok (s1.appendInstr (.alloca id llvm_ty), .slot id)
  | .symbol pos signature => do
      let (g1, name) ← get_or_declare_function s.gen pos signature
      .ok ({ s with gen := g1 }, .func name)
  | .call pos func args => do
      let (s1, fv) ← lowerExpr s func
      match fv with
      | .func fname => do
          let (s2, arguments) ← lowerArgs s1 args
          let (s3, id) := s2.freshId
          .ok (s3.appendInstr (.callI id fname arguments), .instr id)
      | _ =>
          .error (.compilerError pos "internal compiler error: expected function for call")
  | .binary pos op lhs rhs => do
      let (s1, lhs_value) ← lowerExpr s lhs
      let (s2, rhs_value) ← lowerExpr s1 rhs
      let instr ← select_binary_op op pos
      let (s3, id) := s2.freshId
      .ok (s3.appendInstr (.binI id instr lhs_value rhs_value), .instr id)

/-- Argument loop of `visit(call)`: arguments are lowered left to right and
their produced values collected unchanged. -/
def lowerArgs (s : CGV) : List Expr → Except CgError (CGV × List Value)
  | [] => .ok (s, [])
  | e :: rest => do
      let (s1, v) ← lowerExpr s e
      let (s2, vs) ← lowerArgs s1 rest
      .ok (s2, v :: vs)

end

mutual

/-- Statement lowering of `code_gen_visitor`, one case per `visit` overload.
The `if_stat` else case reproduces the source exactly: the main body is
lowered a second time into the else block (the else statements are never
visited), and the conditional branch out of the start block is inserted with
no terminator check.  The constructor-related return is not here but in
`compile_function`. -/
def lowerStmt (s : CGV) : Stmt → Except CgError CGV
  | .expressionStat e => do
      let (s1, _) ← lowerExpr s e
      .ok s1
  | .assignment target fromE => do
      let (s1, toV) ← lowerExpr s target
      let (s2, fromV) ← lowerExpr s1 fromE
      match fromV with
      | .slot k =>
          let (s3, id) := s2.freshId
          let s4 := s3.appendInstr (.load id (.slot k))
          .ok (s4.appendInstr (.store (.instr id) toV))
      | v => .ok (s2.appendInstr (.store v toV))
  | .ret none => .ok (s.appendInstr .retVoid)
  | .ret (some e) => do
      let (s1, v) ← lowerExpr s e
      match v with
      | .slot k =>
          let (s2, id) := s1.freshId
          let s3 := s2.appendInstr (.load id (.slot k))
          .ok (s3.appendInstr (.retI (.instr id)))
      | v2 => .ok (s1.appendInstr (.retI v2))
  | .if_stat condition main_body else_body => do
      let (s1, condition_value) ← lowerExpr s condition
      let start_block := s1.cur
      let (s2, main_body_block) := s1.newBlock
      let s3 ← lowerStmts (s2.setInsert main_body_block) main_body
      match else_body with
      | some _else_statements => do
          let (s4, else_body_block) := s3.newBlock
          let s5 ← lowerStmts (s4.setInsert else_body_block) main_body
          let (s6, end_block) := s5.newBlock
          let s7 := (s6.setInsert start_block).appendInstr
              (.condbr condition_value main_body_block else_body_block)
          let s8 := if (s7.blockTerminator main_body_block).isNone then
              (s7.setInsert main_body_block).appendInstr (.br end_block) else s7
          let s9 := if (s8.blockTerminator else_body_block).isNone then
              (s8.setInsert else_body_block).appendInstr (.br end_block) else s8
          .ok (s9.setInsert end_block)
      | none => do
          let (s4, end_block) := s3.newBlock
          let s5 := if (s4.blockTerminator start_block).isNone then
              (s4.setInsert start_block).appendInstr
                (.condbr condition_value main_body_block end_block) else s4
          let s6 := if (s5.blockTerminator main_body_block).isNone then
              (s5.setInsert main_body_block).appendInstr (.br end_block) else s5
          .ok (s6.setInsert end_block)
  | .while_loop condition body => do
      let start_block := s.cur
      let (s1, loop_start_block) := s.newBlock
      let s2 := if (s1.blockTerminator start_block).isNone then
          s1.appendInstr (.br loop_start_block) else s1
      let (s3, condition_value) ← lowerExpr (s2.setInsert loop_start_block) condition
      let (s4, loop_body_block) := s3.newBlock
      let s5 ← lowerStmts (s4.setInsert loop_body_block) body
      let s6 := if (s5.blockTerminator loop_body_block).isNone then
          (s5.setInsert loop_body_block).appendInstr (.br loop_start_block) else s5
      let (s7, end_block) := s6.newBlock
      let s8 := (s7.setInsert loop_start_block).appendInstr
          (.condbr condition_value loop_body_block end_block)
      .ok (s8.setInsert end_block)

/-- Children loop of a transparent block: statements visited in place. -/
def lowerStmts (s : CGV) : List Stmt → Except CgError CGV
  | [] => .ok s
  | st :: rest => do
      let s1 ← lowerStmt s st
      lowerStmts s1 rest

end

/-- Definition of an ordinary function: signature, body statements, and the
position `func->range.start`. -/
structure FuncDef where
  signature : FunctionSignature
  body : List Stmt
  pos : Pos

/-- Definition of an external function (declaration only). -/
structure ExternFuncDef where
  signature : FunctionSignature
  pos : Pos

/-- Top-level declarations of the module body, in declaration order, as seen
by `function_collector`. -/
inductive TopDecl where
  | func (f : FuncDef)
  | externFunc (f : ExternFuncDef)

/-- Fresh visitor state for one function: a single empty entry block, the
insert point on it, an empty variable map. -/
def initCGV (g : CgState) : CGV :=
  { gen := g, blocks := [[]], cur := 0, var_map := [], nextId := 0 }

/-- Write the function's finished block list back into the module (blocks are
built inside the `llvm::Function` object; the model batches the writes). -/
def CgState.setFunctionBlocks (g : CgState) (name : String)
    (blocks : List (List Instr)) : CgState :=
  { g with llvm_module :=
      g.llvm_module.map (fun f => if f.name == name then { f with blocks := blocks } else f) }

/-- Embedding of `code_generation::compile_function`: declare or fetch the
function, lower the body into a fresh entry block, and — when the signature's
attribute set contains "constructor" — append a void return at the builder's
current position (with no terminator check) and record the function in
`constructor_functions`.  The `verifyFunction` outcome is discarded by the
source. -/
def compile_function (g : CgState) (func : FuncDef) : Except CgError CgState := do
  let (g1, fname) ← get_or_declare_function g func.pos func.signature
  let s0 := initCGV g1
  let s1 ← lowerStmts s0 func.body
  let s2 :=
    if func.signature.attributes.contains "constructor" then
      let s1a := s1.appendInstr .retVoid
      { s1a with gen := { s1a.gen with
          constructor_functions := s1a.gen.constructor_functions ++ [fname] } }
    else s1
  .ok (s2.gen.setFunctionBlocks fname s2.blocks)

/-- Embedding of `code_generation::compile_extern_function`. -/
def compile_extern_function (g : CgState) (func : ExternFuncDef) :
    Except CgError CgState := do
  let (g1, _) ← get_or_declare_function g func.pos func.signature
  .ok g1

/-- Embedding of the `function_collector` visitor: partition the module
body's declarations into ordinary and extern function definitions,
preserving declaration order. -/
def function_collector : List TopDecl → List FuncDef × List ExternFuncDef
  | [] => ([], [])
  | .func f :: rest =>
      let (fs, es) := function_collector rest
      (f :: fs, es)
  | .externFunc e :: rest =>
      let (fs, es) := function_collector rest
      (fs, e :: es)

/-- Extern-function loop of `code_generation::generate`. -/
def compile_extern_functions (g : CgState) : List ExternFuncDef → Except CgError CgState
  | [] => .ok g
  | f :: rest => do
      let g1 ← compile_extern_function g f
      compile_extern_functions g1 rest

/-- Ordinary-function loop of `code_generation::generate`. -/
def compile_functions (g : CgState) : List FuncDef → Except CgError CgState
  | [] => .ok g
  | f :: rest => do
      let g1 ← compile_function g f
      compile_functions g1 rest

/-- Constructor-call loop of `code_generation::generate`: one call
instruction per collected constructor, in collection order, with no
arguments (the first parameter numbers the instruction results). -/
def entry_calls : Nat → List String → List Instr
  | _, [] => []
  | i, c :: rest => .callI i c [] :: entry_calls (i + 1) rest

/-- Embedding of `code_generation::generate`: collect, lower externs, lower
functions, then synthesize the internal "entry" function of type void() whose
single block calls every collected constructor in order with no arguments and
ends in a void return.  The `verifyModule` outcome is discarded by the
source. -/
def generate (g : CgState) (module_body : List TopDecl) :
    Except CgError (CgState × LLVMFunction) := do
  let (funcs, extern_funcs) := function_collector module_body
  let g1 ← compile_extern_functions g extern_funcs
  let g2 ← compile_functions g1 funcs
  let entry_block := entry_calls 0 g2.constructor_functions ++ [Instr.retVoid]
  let entry_function : LLVMFunction :=
    { name := "entry", fty := .funcTy .voidTy [], linkage := .internal,
      blocks := [entry_block] }
  .ok ({ g2 with llvm_module := g2.llvm_module ++ [entry_function] }, entry_function)

/-- Modelled from the spec: the binary-operation selection policy of
section 4.4 — "choose the floating-point form if either operand's evaluated
type is floating point, else choose the signed integer form unless both
operands are proven unsigned".  The four flags say whether each operand's
evaluated type is floating point and whether each operand is proven
unsigned; operators outside the set have no selection. -/
def select_binary_op_spec (op : BinOp)
    (lhs_float rhs_float lhs_unsigned rhs_unsigned : Bool) : Option LLVMBinInstr :=
  let float_operation := lhs_float || rhs_float
  let unsigned_operation := lhs_unsigned && rhs_unsigned
  match op with
  | .symbol_add => some (if float_operation then .fadd else .add)
  | .symbol_minus => some (if float_operation then .fsub else .sub)
  | .symbol_multiply => some (if float_operation then .fmul else .mul)
  | .symbol_divide =>
      some (if float_operation then .fdiv
            else if unsigned_operation then .udiv else .sdiv)
  | .symbol_eq => some (if float_operation then .fcmp_oeq else .icmp_eq)
  | .symbol_neq => some (if float_operation then .fcmp_one else .icmp_ne)
  | .symbol_lt =>
      some (if float_operation then .fcmp_olt
            else if unsigned_operation then .icmp_ult else .icmp_slt)
  | .symbol_lteq =>
      some (if float_operation then .fcmp_ole
            else if unsigned_operation then .icmp_ule else .icmp_sle)
  | .symbol_gt =>
      some (if float_operation then .fcmp_ogt
            else if unsigned_operation then .icmp_ugt else .icmp_sgt)
  | .symbol_gteq =>
      some (if float_operation then .fcmp_oge
            else if unsigned_operation then .icmp_uge else .icmp_sge)
  | .other _ => none

/-- State of a freshly constructed `code_generation` object, with a 64-bit
platform size type, empty caches, an empty module and no collected
constructors. -/
def initial_state : CgState :=
  { size_type := .intTy 64
    function_type_map := []
    llvm_module := []
    constructor_functions := [] }

/-- The parts of the `code_generation` state that are preserved by body
lowering: the collected constructor list and the size type are untouched,
and a function already registered in the module stays registered (lowering
may add functions but never removes one). -/
def GenPreserves (g g1 : CgState) : Prop :=
  g1.constructor_functions = g.constructor_functions ∧
  g1.size_type = g.size_type ∧
  ∀ n, (g.findFunction n).isSome = true → (g1.findFunction n).isSome = true

/-- Concrete input for the C1 analysis: a function tagged "constructor"
whose body is a single bare `return`. -/
def fC1 : FuncDef :=
  { signature :=
      { name := "ctor"
        mangled_name := "ctor_m"
        parameters := []
        return_type := .builtIn .void_
        is_extern := false
        attributes := ["constructor"] }
    body := [.ret none]
    pos := (1, 1) }

/-- Concrete input for the C2 analysis: an if statement with a `return` in
the main body and an empty else branch. -/
def c2_stmt : Stmt := .if_stat (.boolLit true) [.ret none] (some [])

/-- Concrete extern signature: `extern fn puts(s: string) -> i32`.  Extern
signatures are not mangled by the resolver, so `mangled_name` holds its
default empty value. -/
def sig_puts : FunctionSignature :=
  { name := "puts"
    mangled_name := ""
    parameters := [.builtIn .string_]
    return_type := .builtIn .i32
    is_extern := true
    attributes := [] }

/-- Concrete extern signature with a different declared name and a different
function type: `extern fn exit0() -> void`, also unmangled. -/
def sig_exit0 : FunctionSignature :=
  { name := "exit0"
    mangled_name := ""
    parameters := [.builtIn .i64]
    return_type := .builtIn .void_
    is_extern := true
    attributes := [] }

/-- The IR function type of `sig_puts`. -/
def puts_fty : LLVMType :=
  .funcTy (.intTy 32) [.structTy [.intTy 64, .ptrTy (.intTy 8)]]

/-- State of the function-type cache after lowering `sig_puts` once. -/
def c4_g1 : CgState :=
  { initial_state with function_type_map := [("", puts_fty)] }

/-- Concrete constructor function with the given name and mangled name and an
empty body. -/
def mk_ctor_fn (n m : String) : FuncDef :=
  { signature :=
      { name := n
        mangled_name := m
        parameters := []
        return_type := .builtIn .void_
        is_extern := false
        attributes := ["constructor"] }
    body := []
    pos := (1, 1) }

/-- Concrete module body for the C6 witness: three constructor functions in
declaration order. -/
def c6_body : List TopDecl :=
  [.func (mk_ctor_fn "f1" "f1_m"), .func (mk_ctor_fn "f2" "f2_m"),
   .func (mk_ctor_fn "f3" "f3_m")]

/-- Final state of the C6 witness run (extracted from `generate`). -/
def c6_gen : CgState :=
  match generate initial_state c6_body with
  | .ok p => p.1
  | .error _ => initial_state

/-- Entry function of the C6 witness run (extracted from `generate`). -/
def c6_entry : LLVMFunction :=
  match generate initial_state c6_body with
  | .ok p => p.2
  | .error _ => { name := "", fty := .voidTy, linkage := .internal, blocks := [] }

/-- Concrete input for the C9 witness: a constructor function with an empty
body. -/
def fC9 : FuncDef := mk_ctor_fn "c9" "c9_m"

/-- Module state after declaring `fC9` (extracted from
`get_or_declare_function`). -/
def c9_g1 : CgState :=
  match get_or_declare_function initial_state fC9.pos fC9.signature with
  | .ok p => p.1
  | .error _ => initial_state

/-- Visitor state after lowering the (empty) body of `fC9`. -/
def c9_s1 : CGV :=
  match lowerStmts (initCGV c9_g1) fC9.body with
  | .ok s => s
  | .error _ => initCGV c9_g1

/-- Fresh visitor state used by the C10 witness. -/
def c10_s0 : CGV := initCGV initial_state

/-- Visitor state after lowering the callee symbol `puts` (C10 witness). -/
def c10_sf : CGV :=
  match lowerExpr c10_s0 (.symbol (2, 2) sig_puts) with
  | .ok p => p.1
  | .error _ => c10_s0

/-- Visitor state after lowering the single variable-reference argument
(C10 witness). -/
def c10_s1 : CGV :=
  match lowerArgs c10_sf [.varRef 7 (.builtIn .i32)] with
  | .ok p => p.1
  | .error _ => c10_sf

/-- Visitor state after lowering a single variable reference from the fresh
state (C10 witness). -/
def c10_sx : CGV :=
  match lowerExpr c10_s0 (.varRef 7 (.builtIn .i32)) with
  | .ok p => p.1
  | .error _ => c10_s0

/-- Visitor state after lowering the assignment target and then the
assignment source, both variable references (C10 witness). -/
def c10_sy : CGV :=
  match lowerExpr c10_sx (.varRef 8 (.builtIn .i32)) with
  | .ok p => p.1
  | .error _ => c10_sx

/-! Helper lemmas about the monadic plumbing and the visitor state. -/

theorem except_bind_ok {ε α β : Type} {x : Except ε α} {f : α → Except ε β} {b : β}
    (h : x >>= f = .ok b) : ∃ a, x = .ok a ∧ f a = .ok b := by
  cases x with
  | error e => exact absurd h (by simp [Bind.bind, Except.bind])
  | ok a => exact ⟨a, rfl, h⟩

@[simp] theorem CGV.appendInstr_gen (s : CGV) (i : Instr) : (s.appendInstr i).gen = s.gen := rfl

@[simp] theorem CGV.newBlock_gen (s : CGV) : s.newBlock.1.gen = s.gen := rfl

@[simp] theorem CGV.setInsert_gen (s : CGV) (b : Nat) : (s.setInsert b).gen = s.gen := rfl

@[simp] theorem CGV.freshId_gen (s : CGV) : s.freshId.1.gen = s.gen := rfl

theorem GenPreserves.refl (g : CgState) : GenPreserves g g :=
  ⟨Eq.refl _, Eq.refl _, fun _ h => h⟩

theorem GenPreserves.trans {a b c : CgState} (h1 : GenPreserves a b)
    (h2 : GenPreserves b c) : GenPreserves a c :=
  ⟨h2.1.trans h1.1, h2.2.1.trans h1.2.1, fun n h => h2.2.2 n (h1.2.2 n h)⟩

theorem find?_append_isSome {α : Type} (p : α → Bool) (l1 l2 : List α)
    (h : (l1.find? p).isSome = true) : ((l1 ++ l2).find? p).isSome = true := by
  induction l1 with
  | nil => simp [List.find?] at h
  | cons x xs ih =>
      cases hx : p x with
      | true => simp [List.find?, hx]
      | false =>
          simp only [List.find?, hx, List.cons_append] at h ⊢
          exact ih h

theorem find?_append_right {α : Type} (p : α → Bool) (l : List α) (x : α)
    (hx : p x = true) : ((l ++ [x]).find? p).isSome = true := by
  induction l with
  | nil => simp [List.find?, hx]
  | cons y ys ih =>
      cases hy : p y with
      | true => simp [List.find?, hy]
      | false => simp only [List.find?, hy, List.cons_append]; exact ih

/-! Claim C7. -/

/-- C7 counterexample: applying Type Lowering to a user-defined type
descriptor does not fail with an internal-compiler-error carrying a source
position, as the claim states; it fails with a plain runtime error that
carries no position at all. -/
theorem c7_class_type_not_compiler_error :
    get_llvm_type (.intTy 64) (.classTy "c") =
      .error (.runtimeError "TODO: class types are not supported") ∧
    isCompilerErrorResult (get_llvm_type (.intTy 64) (.classTy "c")) = false :=
  ⟨rfl, rfl⟩

/-- C7 (amended): Type Lowering never silently produces a type for a
user-defined descriptor or for an unrecognized built-in tag.  A user-defined
descriptor fails with a plain runtime error (carrying no source position),
and an unrecognized built-in tag fails with an internal-compiler-error
carrying the dummy position (0, 0). -/
theorem c7_unsupported_types_fail (st : LLVMType) (s : String) (n : Nat) :
    get_llvm_type st (.classTy s) =
      .error (.runtimeError "TODO: class types are not supported") ∧
    get_llvm_type st (.builtIn (.unrecognized n)) =
      .error (.compilerError (0, 0) "internal compiler error: unknown type") :=
  ⟨rfl, rfl⟩

/-! Claim C8. -/

/-- C8 counterexample: the distinct tags u8 and i8 are lowered to the same
IR type, so Type Lowering does not produce a distinct IR type per built-in
tag. -/
theorem c8_u8_i8_share_type :
    get_llvm_type (.intTy 64) (.builtIn .u8) = get_llvm_type (.intTy 64) (.builtIn .i8) ∧
    built_in_type.u8 ≠ built_in_type.i8 :=
  ⟨rfl, by decide⟩

/-- C8 (amended): within one compilation, Type Lowering maps recognized
built-in tags to IR types according to their storage shape: two tags receive
the identical IR type exactly when they are the same tag or a
signed/unsigned pair of the same width (the signedness distinction is erased
at the storage level); tags of different storage shapes receive distinct
types, and the same tag always receives the identical type object. -/
theorem c8_storage_shape (st : LLVMType) (t1 t2 : built_in_type)
    (h1 : t1.recognized = true) (h2 : t2.recognized = true) :
    get_llvm_type st (.builtIn t1) = get_llvm_type st (.builtIn t2) ↔
      t1.storageKey = t2.storageKey := by
  cases t1 <;> cases t2 <;>
    simp_all [get_llvm_type, built_in_type.recognized, built_in_type.storageKey]

/-- C8 witness: the amended statement evaluated at the u8/i8 pair. -/
theorem c8_storage_shape_witness :
    built_in_type.u8.recognized = true ∧ built_in_type.i8.recognized = true ∧
    (get_llvm_type (.intTy 64) (.builtIn .u8) = get_llvm_type (.intTy 64) (.builtIn .i8) ↔
      built_in_type.u8.storageKey = built_in_type.i8.storageKey) :=
  ⟨rfl, rfl, c8_storage_shape (.intTy 64) .u8 .i8 rfl rfl⟩

/-! Claim C5. -/

/-- C5: the source hard-codes `float_operation = false`, so the lowering of
an addition whose operands have floating-point evaluated types still selects
the integer `CreateAdd` form, while the spec's selection policy picks
`CreateFAdd`; the claim fails on the code. -/
theorem c5_float_operands_ignored :
    select_binary_op .symbol_add (1, 1) = .ok .add ∧
    select_binary_op_spec .symbol_add true true false false = some .fadd ∧
    LLVMBinInstr.add ≠ LLVMBinInstr.fadd :=
  ⟨rfl, rfl, by decide⟩

/-! Claim C3. -/

/-- C3: lowering two successive references to the same variable allocates a
fresh stack slot each time — the first reference produces slot 0, the second
produces slot 1, and the variable-storage map is still empty afterwards,
because `visit(variable_ref)` never records the allocated slot. -/
theorem c3_fresh_slot_every_reference :
    ((do
      let (s1, v1) ← lowerExpr (initCGV initial_state) (.varRef 0 (.builtIn .i32))
      let (s2, v2) ← lowerExpr s1 (.varRef 0 (.builtIn .i32))
      pure (v1, v2, s2.var_map)) : Except CgError (Value × Value × List (Nat × Value))) =
      .ok (.slot 0, .slot 1, []) ∧
    Value.slot 0 ≠ Value.slot 1 :=
  ⟨rfl, by decide⟩

/-! Claim C2. -/

/-- C2: lowering `if true { return } else { }` puts the main body's
statements into the else-body block: block 1 (main body) and block 2 (else
body) both hold the main body's `ret void`, although the else branch is
empty — by the claim the else block would hold no return and only a branch
to the merge block.  (Because the copied return terminates the else block,
the gated merge branches are both skipped and the merge block, block 3,
stays empty.) -/
theorem c2_else_block_gets_main_body :
    (lowerStmt (initCGV initial_state) c2_stmt).map (fun s => (s.blocks, s.cur)) =
      .ok ([[.condbr (.constBool true) 1 2], [.retVoid], [.retVoid], []], 3) :=
  rfl

/-! Claim C1. -/

/-- C1: compiling a constructor-tagged function whose body is a bare
`return` yields an entry block containing two `ret void` terminators: the
return appended after body lowering by `compile_function` is not gated on
the block lacking a terminator, so the claimed invariant fails on the
entry block (which is trivially reachable). -/
theorem c1_constructor_double_terminator :
    (compile_function initial_state fC1).map
      (fun g => g.llvm_module.map (fun fn => (fn.name, fn.blocks))) =
      .ok [("ctor_m", [[Instr.retVoid, Instr.retVoid]])] ∧
    [Instr.retVoid, Instr.retVoid].countP (fun i => i.isTerminator) = 2 :=
  ⟨rfl, rfl⟩

/-! Claim C4. -/

theorem get_llvm_function_type_lookup (g : CgState) (p : Pos) (s : FunctionSignature)
    (ft : LLVMType) (g1 : CgState)
    (h : get_llvm_function_type g p s = .ok (ft, g1)) :
    g1.function_type_map.lookup s.mangled_name = some ft := by
  unfold get_llvm_function_type at h
  cases hl : g.function_type_map.lookup s.mangled_name with
  | some ft0 =>
      rw [hl] at h
      simp only [Except.ok.injEq, Prod.mk.injEq] at h
      rw [← h.2, ← h.1]
      exact hl
  | none =>
      rw [hl] at h
      rcases except_bind_ok h with ⟨rt, hrt, h⟩
      split at h
      · exact absurd h (by simp)
      · rcases except_bind_ok h with ⟨ps, hps, h⟩
        simp only [Except.ok.injEq, Prod.mk.injEq] at h
        rw [← h.2, ← h.1]
        simp [List.lookup]

/-- C4 (amended): the function-type cache is keyed by the signature's
mangled name for all signatures, extern included (extern signatures, which
the resolver does not mangle, all share the default mangled-name value).  A
second call whose signature has the same mangled name returns the identical
cached function-type object and leaves the state unchanged — even when the
two signatures differ. -/
theorem c4_cache_by_mangled_name (g g1 : CgState) (p1 p2 : Pos)
    (s1 s2 : FunctionSignature) (ft : LLVMType)
    (hname : s2.mangled_name = s1.mangled_name)
    (h : get_llvm_function_type g p1 s1 = .ok (ft, g1)) :
    get_llvm_function_type g1 p2 s2 = .ok (ft, g1) := by
  have hl := get_llvm_function_type_lookup g p1 s1 ft g1 h
  unfold get_llvm_function_type
  rw [hname, hl]

/-- C4 counterexample: two different extern signatures (different declared
names, different parameter and return types, both with the unmangled default
mangled name) receive the identical cached function-type object — the cache
is not keyed by the declared name for extern signatures, and different
signatures can receive the same object; the second signature even receives
the first signature's type rather than its own. -/
theorem c4_extern_signatures_collide :
    ((do
      let (t1, g1) ← get_llvm_function_type initial_state (1, 1) sig_puts
      let (t2, _) ← get_llvm_function_type g1 (2, 2) sig_exit0
      pure (t1, t2)) : Except CgError (LLVMType × LLVMType)) = .ok (puts_fty, puts_fty) ∧
    sig_puts ≠ sig_exit0 ∧
    sig_puts.name ≠ sig_exit0.name ∧
    puts_fty ≠ .funcTy .voidTy [.intTy 64] :=
  ⟨rfl, by decide, by decide, by simp [puts_fty]⟩

/-- C4 witness: the amended statement evaluated on the two concrete extern
signatures; the second lookup returns the first signature's cached type. -/
theorem c4_cache_witness :
    get_llvm_function_type c4_g1 (2, 2) sig_exit0 = .ok (puts_fty, c4_g1) :=
  c4_cache_by_mangled_name initial_state c4_g1 (1, 1) (2, 2) sig_puts sig_exit0
    puts_fty rfl rfl

/-! Preservation of the `code_generation` state through body lowering. -/

@[simp] theorem gen_ite (c : Prop) [Decidable c] (a b : CGV) :
    (if c then a else b).gen = if c then a.gen else b.gen := by
  split <;> rfl

@[simp] theorem CgState.setFunctionBlocks_ctors (g : CgState) (n : String)
    (bs : List (List Instr)) :
    (g.setFunctionBlocks n bs).constructor_functions = g.constructor_functions := rfl

theorem get_llvm_function_type_preserves (g : CgState) (p : Pos) (s : FunctionSignature)
    (ft : LLVMType) (g1 : CgState)
    (h : get_llvm_function_type g p s = .ok (ft, g1)) : GenPreserves g g1 := by
  unfold get_llvm_function_type at h
  cases hl : g.function_type_map.lookup s.mangled_name with
  | some ft0 =>
      rw [hl] at h
      simp only [Except.ok.injEq, Prod.mk.injEq] at h
      rw [← h.2]
      exact GenPreserves.refl g
  | none =>
      rw [hl] at h
      rcases except_bind_ok h with ⟨rt, _, h⟩
      split at h
      · exact absurd h (by simp)
      · rcases except_bind_ok h with ⟨ps, _, h⟩
        simp only [Except.ok.injEq, Prod.mk.injEq] at h
        rw [← h.2]
        exact ⟨rfl, rfl, fun n hn => hn⟩

theorem genPreserves_append_fn (g : CgState) (fn : LLVMFunction) :
    GenPreserves g { g with llvm_module := g.llvm_module ++ [fn] } := by
  refine ⟨rfl, rfl, fun n hn => ?_⟩
  simp only [CgState.findFunction] at hn ⊢
  exact find?_append_isSome _ _ _ hn

theorem get_or_declare_function_spec (g : CgState) (p : Pos) (s : FunctionSignature)
    (g1 : CgState) (n : String)
    (h : get_or_declare_function g p s = .ok (g1, n)) :
    n = s.ir_name ∧ GenPreserves g g1 ∧ (g1.findFunction s.ir_name).isSome = true := by
  unfold get_or_declare_function at h
  cases hf : g.findFunction s.ir_name with
  | some fn =>
      rw [hf] at h
      simp only [Except.ok.injEq, Prod.mk.injEq] at h
      refine ⟨h.2.symm, ?_, ?_⟩
      · rw [← h.1]; exact GenPreserves.refl g
      · rw [← h.1, hf]; rfl
  | none =>
      rw [hf] at h
      rcases except_bind_ok h with ⟨⟨ft, gA⟩, hft, h⟩
      simp only [Except.ok.injEq, Prod.mk.injEq] at h
      have hA := get_llvm_function_type_preserves g p s ft gA hft
      refine ⟨h.2.symm, ?_, ?_⟩
      · rw [← h.1]
        exact hA.trans (genPreserves_append_fn gA _)
      · rw [← h.1]
        simp only [CgState.findFunction]
        exact find?_append_right _ _ _ (by simp)

mutual

theorem lowerExpr_gen_preserves (s : CGV) (e : Expr) (s1 : CGV) (v : Value)
    (h : lowerExpr s e = .ok (s1, v)) : GenPreserves s.gen s1.gen := by
  cases e with
  | boolLit b =>
      simp only [lowerExpr, Except.ok.injEq, Prod.mk.injEq] at h
      rw [← h.1]
      exact GenPreserves.refl _
  | varRef var ty =>
      simp only [lowerExpr] at h
      cases hv : s.var_map.lookup var with
      | some v0 =>
          rw [hv] at h
          simp only [Except.ok.injEq, Prod.mk.injEq] at h
          rw [← h.1]
          exact GenPreserves.refl _
      | none =>
          rw [hv] at h
          rcases except_bind_ok h with ⟨ty1, _, h⟩
          simp only [Except.ok.injEq, Prod.mk.injEq] at h
          rw [← h.1]
          exact GenPreserves.refl _
  | symbol pos sig =>
      simp only [lowerExpr] at h
      rcases except_bind_ok h with ⟨⟨gA, name⟩, hdecl, h⟩
      simp only [Except.ok.injEq, Prod.mk.injEq] at h
      rw [← h.1]
      exact (get_or_declare_function_spec _ _ _ _ _ hdecl).2.1
  | call pos f args =>
      simp only [lowerExpr] at h
      rcases except_bind_ok h with ⟨⟨sf, fv⟩, hf, h⟩
      have ih1 := lowerExpr_gen_preserves s f sf fv hf
      cases fv with
      | func fname =>
          rcases except_bind_ok h with ⟨⟨sa, vals⟩, hargs, h⟩
          have ih2 := lowerArgs_gen_preserves sf args sa vals hargs
          simp only [Except.ok.injEq, Prod.mk.injEq] at h
          rw [← h.1]
          exact ih1.trans ih2
      | constBool b => exact absurd h (by simp)
      | slot k => exact absurd h (by simp)
      | instr k => exact absurd h (by simp)
  | binary pos op l r =>
      simp only [lowerExpr] at h
      rcases except_bind_ok h with ⟨⟨sA, lv⟩, hl, h⟩
      rcases except_bind_ok h with ⟨⟨sB, rv⟩, hr, h⟩
      rcases except_bind_ok h with ⟨instr, _, h⟩
      have ih1 := lowerExpr_gen_preserves s l sA lv hl
      have ih2 := lowerExpr_gen_preserves sA r sB rv hr
      simp only [Except.ok.injEq, Prod.mk.injEq] at h
      rw [← h.1]
      exact ih1.trans ih2

theorem lowerArgs_gen_preserves (s : CGV) (es : List Expr) (s1 : CGV) (vs : List Value)
    (h : lowerArgs s es = .ok (s1, vs)) : GenPreserves s.gen s1.gen := by
  cases es with
  | nil =>
      simp only [lowerArgs, Except.ok.injEq, Prod.mk.injEq] at h
      rw [← h.1]
      exact GenPreserves.refl _
  | cons e rest =>
      simp only [lowerArgs] at h
      rcases except_bind_ok h with ⟨⟨sA, v⟩, he, h⟩
      rcases except_bind_ok h with ⟨⟨sB, vs2⟩, hrest, h⟩
      have ih1 := lowerExpr_gen_preserves s e sA v he
      have ih2 := lowerArgs_gen_preserves sA rest sB vs2 hrest
      simp only [Except.ok.injEq, Prod.mk.injEq] at h
      rw [← h.1]
      exact ih1.trans ih2

end

mutual

theorem lowerStmt_gen_preserves (s : CGV) (st : Stmt) (s1 : CGV)
    (h : lowerStmt s st = .ok s1) : GenPreserves s.gen s1.gen := by
  cases st with
  | expressionStat e =>
      simp only [lowerStmt] at h
      rcases except_bind_ok h with ⟨⟨sA, v⟩, he, h⟩
      have ih := lowerExpr_gen_preserves s e sA v he
      simp only [Except.ok.injEq] at h
      rw [← h]
      exact ih
  | assignment target fromE =>
      simp only [lowerStmt] at h
      rcases except_bind_ok h with ⟨⟨sA, tv⟩, ht, h⟩
      rcases except_bind_ok h with ⟨⟨sB, fv⟩, hf, h⟩
      have ih1 := lowerExpr_gen_preserves s target sA tv ht
      have ih2 := lowerExpr_gen_preserves sA fromE sB fv hf
      cases fv <;> simp only [Except.ok.injEq] at h <;> rw [← h] <;> exact ih1.trans ih2
  | ret value =>
      cases value with
      | none =>
          simp only [lowerStmt, Except.ok.injEq] at h
          rw [← h]
          exact GenPreserves.refl _
      | some e =>
          simp only [lowerStmt] at h
          rcases except_bind_ok h with ⟨⟨sA, v⟩, he, h⟩
          have ih := lowerExpr_gen_preserves s e sA v he
          cases v <;> simp only [Except.ok.injEq] at h <;> rw [← h] <;> exact ih
  | if_stat condition main_body else_body =>
      simp only [lowerStmt] at h
      rcases except_bind_ok h with ⟨⟨sA, cv⟩, hc, h⟩
      have ih1 := lowerExpr_gen_preserves s condition sA cv hc
      cases else_body with
      | some else_statements =>
          rcases except_bind_ok h with ⟨sM, hm, h⟩
          rcases except_bind_ok h with ⟨sE, he, h⟩
          have ih2 := lowerStmts_gen_preserves _ main_body sM hm
          have ih3 := lowerStmts_gen_preserves _ main_body sE he
          simp only [CGV.newBlock_gen, CGV.setInsert_gen] at ih2 ih3
          simp only [Except.ok.injEq] at h
          rw [← h]
          simp only [CGV.setInsert_gen, gen_ite, CGV.appendInstr_gen, ite_self]
          exact ih1.trans (ih2.trans ih3)
      | none =>
          rcases except_bind_ok h with ⟨sM, hm, h⟩
          have ih2 := lowerStmts_gen_preserves _ main_body sM hm
          simp only [CGV.newBlock_gen, CGV.setInsert_gen] at ih2
          simp only [Except.ok.injEq] at h
          rw [← h]
          simp only [CGV.setInsert_gen, gen_ite, CGV.appendInstr_gen, ite_self]
          exact ih1.trans ih2
  | while_loop condition body =>
      simp only [lowerStmt] at h
      rcases except_bind_ok h with ⟨⟨sA, cv⟩, hc, h⟩
      have ih1 := lowerExpr_gen_preserves _ condition sA cv hc
      simp only [CGV.setInsert_gen, gen_ite, CGV.appendInstr_gen, CGV.newBlock_gen,
        ite_self] at ih1
      rcases except_bind_ok h with ⟨sB, hb, h⟩
      have ih2 := lowerStmts_gen_preserves _ body sB hb
      simp only [CGV.setInsert_gen, CGV.newBlock_gen] at ih2
      simp only [Except.ok.injEq] at h
      rw [← h]
      simp only [CGV.setInsert_gen, gen_ite, CGV.appendInstr_gen, CGV.newBlock_gen,
        ite_self]
      exact ih1.trans ih2

theorem lowerStmts_gen_preserves (s : CGV) (sts : List Stmt) (s1 : CGV)
    (h : lowerStmts s sts = .ok s1) : GenPreserves s.gen s1.gen := by
  cases sts with
  | nil =>
      simp only [lowerStmts, Except.ok.injEq] at h
      rw [← h]
      exact GenPreserves.refl _
  | cons st rest =>
      simp only [lowerStmts] at h
      rcases except_bind_ok h with ⟨sA, hst, hrest⟩
      exact (lowerStmt_gen_preserves s st sA hst).trans
        (lowerStmts_gen_preserves sA rest s1 hrest)

end

@[simp] theorem initCGV_gen (g : CgState) : (initCGV g).gen = g := rfl

@[simp] theorem except_bind_ok_eval {ε α β : Type} (a : α) (f : α → Except ε β) :
    (Except.ok a : Except ε α) >>= f = f a := rfl

theorem compile_function_ctors (g : CgState) (f : FuncDef) (g2 : CgState)
    (h : compile_function g f = .ok g2) :
    g2.constructor_functions = g.constructor_functions ++
      (if f.signature.attributes.contains "constructor" then [f.signature.ir_name]
       else []) := by
  unfold compile_function at h
  rcases except_bind_ok h with ⟨⟨g1, fname⟩, hdecl, h⟩
  rcases except_bind_ok h with ⟨s1, hbody, h⟩
  obtain ⟨hname, hpres, _⟩ := get_or_declare_function_spec _ _ _ _ _ hdecl
  have hbodyp := lowerStmts_gen_preserves _ _ _ hbody
  simp only [Except.ok.injEq] at h
  rw [← h]
  have e1 : s1.gen.constructor_functions = g1.constructor_functions := hbodyp.1
  by_cases hc : f.signature.attributes.contains "constructor" = true
  · simp only [hc, eq_self_iff_true, if_true, CgState.setFunctionBlocks_ctors,
      CGV.appendInstr_gen]
    rw [e1, hpres.1, hname]
  · rw [Bool.not_eq_true] at hc
    simp only [hc, Bool.false_eq_true, if_false, CgState.setFunctionBlocks_ctors]
    rw [e1, hpres.1, List.append_nil]

/-! Claim C9. -/

/-- C9: for a function whose signature's attribute set contains
"constructor", `compile_function` appends a void return at the builder's
current position after body lowering unconditionally — the hypothesis places
no constraint whatsoever on the lowered state `s1`, in particular its
current block may already end in a terminator — and pushes exactly the
constructor-tagged functions onto the constructor list (a function without
the attribute leaves both the blocks and the list untouched). -/
theorem c9_constructor_retvoid (g g1 : CgState) (f : FuncDef) (fname : String)
    (s1 : CGV)
    (hdecl : get_or_declare_function g f.pos f.signature = .ok (g1, fname))
    (hbody : lowerStmts (initCGV g1) f.body = .ok s1) :
    (f.signature.attributes.contains "constructor" = true →
      compile_function g f = .ok
        (CgState.setFunctionBlocks
          { s1.gen with constructor_functions := s1.gen.constructor_functions ++ [fname] }
          fname (s1.appendInstr .retVoid).blocks)) ∧
    (f.signature.attributes.contains "constructor" = false →
      compile_function g f = .ok (s1.gen.setFunctionBlocks fname s1.blocks)) := by
  constructor <;> intro hc <;>
    simp only [compile_function, hdecl, except_bind_ok_eval, hbody, hc,
      Bool.false_eq_true, eq_self_iff_true, if_true, if_false, CGV.appendInstr_gen]

/-- C9 witness: the statement evaluated on the concrete constructor function
`fC9` (empty body). -/
theorem c9_constructor_retvoid_witness :
    compile_function initial_state fC9 = .ok
      (CgState.setFunctionBlocks
        { c9_s1.gen with constructor_functions := c9_s1.gen.constructor_functions ++ ["c9_m"] }
        "c9_m" (c9_s1.appendInstr .retVoid).blocks) :=
  (c9_constructor_retvoid initial_state c9_g1 fC9 "c9_m" c9_s1 rfl rfl).1 rfl

/-! Claim C6. -/

/-- C6: given three functions declared in that order, all carrying the
"constructor" attribute, and a fresh constructor list, the Module Assembler
synthesizes one internal function named "entry" with no parameters and void
return whose single block calls the three functions in exactly declaration
order, each with zero arguments and its result discarded, followed by a void
return. -/
theorem c6_entry_calls_constructors_in_order (g0 : CgState) (f1 f2 f3 : FuncDef)
    (g : CgState) (entry_fn : LLVMFunction)
    (h0 : g0.constructor_functions = [])
    (h1 : f1.signature.attributes.contains "constructor" = true)
    (h2 : f2.signature.attributes.contains "constructor" = true)
    (h3 : f3.signature.attributes.contains "constructor" = true)
    (hgen : generate g0 [.func f1, .func f2, .func f3] = .ok (g, entry_fn)) :
    entry_fn.name = "entry" ∧ entry_fn.linkage = .internal ∧
    entry_fn.fty = .funcTy .voidTy [] ∧
    entry_fn.blocks =
      [[.callI 0 f1.signature.ir_name [], .callI 1 f2.signature.ir_name [],
        .callI 2 f3.signature.ir_name [], .retVoid]] := by
  unfold generate at hgen
  simp only [function_collector, compile_extern_functions, except_bind_ok_eval] at hgen
  rcases except_bind_ok hgen with ⟨g2, hcf, hgen⟩
  simp only [compile_functions] at hcf
  rcases except_bind_ok hcf with ⟨gA, hA, hcf⟩
  rcases except_bind_ok hcf with ⟨gB, hB, hcf⟩
  rcases except_bind_ok hcf with ⟨gC, hC, hcf⟩
  simp only [Except.ok.injEq] at hcf
  have eA := compile_function_ctors _ _ _ hA
  have eB := compile_function_ctors _ _ _ hB
  have eC := compile_function_ctors _ _ _ hC
  have m1 : "constructor" ∈ f1.signature.attributes := by simpa using h1
  have m2 : "constructor" ∈ f2.signature.attributes := by simpa using h2
  have m3 : "constructor" ∈ f3.signature.attributes := by simpa using h3
  have hctors : g2.constructor_functions =
      [f1.signature.ir_name, f2.signature.ir_name, f3.signature.ir_name] := by
    rw [← hcf, eC, eB, eA, h0]
    simp [m1, m2, m3]
  simp only [Except.ok.injEq, Prod.mk.injEq] at hgen
  rw [← hgen.2]
  refine ⟨rfl, rfl, rfl, ?_⟩
  rw [hctors]
  simp [entry_calls]

/-- C6 witness: the statement evaluated on three concrete constructor
functions `f1`, `f2`, `f3`. -/
theorem c6_entry_witness :
    c6_entry.name = "entry" ∧ c6_entry.linkage = .internal ∧
    c6_entry.fty = .funcTy .voidTy [] ∧
    c6_entry.blocks =
      [[.callI 0 "f1_m" [], .callI 1 "f2_m" [], .callI 2 "f3_m" [], .retVoid]] :=
  c6_entry_calls_constructors_in_order initial_state (mk_ctor_fn "f1" "f1_m")
    (mk_ctor_fn "f2" "f2_m") (mk_ctor_fn "f3" "f3_m") c6_gen c6_entry
    rfl rfl rfl rfl rfl

/-! Claim C10. -/

/-- C10: a call passes every argument value exactly as produced by lowering
the argument expression, with no load inserted — in particular a
variable-reference argument contributes its stack-slot pointer itself
(second conjunct) — whereas return-value lowering and assignment-source
lowering insert a load when the produced value is a stack slot and use the
loaded value instead (third and fourth conjuncts). -/
theorem c10_call_args_unloaded :
    (∀ (s sf s1 : CGV) (pos : Pos) (fexpr : Expr)
       (args : List Expr) (fname : String) (vals : List Value),
      lowerExpr s fexpr = .ok (sf, .func fname) →
      lowerArgs sf args = .ok (s1, vals) →
      lowerExpr s (.call pos fexpr args) =
        .ok (s1.freshId.1.appendInstr (.callI s1.nextId fname vals),
             .instr s1.nextId)) ∧
    (∀ (s : CGV) (v : Nat) (ty : TypeValue) (llvm_ty : LLVMType),
      s.var_map.lookup v = none →
      get_llvm_type s.gen.size_type ty = .ok llvm_ty →
      lowerExpr s (.varRef v ty) =
        .ok (s.freshId.1.appendInstr (.alloca s.nextId llvm_ty),
             .slot s.nextId)) ∧
    (∀ (s s1 : CGV) (e : Expr) (k : Nat),
      lowerExpr s e = .ok (s1, .slot k) →
      lowerStmt s (.ret (some e)) =
        .ok ((s1.freshId.1.appendInstr (.load s1.nextId (.slot k))).appendInstr
          (.retI (.instr s1.nextId)))) ∧
    (∀ (s s1 s2 : CGV) (t e : Expr) (tv : Value) (k : Nat),
      lowerExpr s t = .ok (s1, tv) →
      lowerExpr s1 e = .ok (s2, .slot k) →
      lowerStmt s (.assignment t e) =
        .ok ((s2.freshId.1.appendInstr (.load s2.nextId (.slot k))).appendInstr
          (.store (.instr s2.nextId) tv))) := by
  refine ⟨?_, ?_, ?_, ?_⟩
  · intro s sf s1 pos fexpr args fname vals hf hargs
    simp only [lowerExpr, hf, hargs, except_bind_ok_eval, CGV.freshId]
  · intro s v ty llvm_ty hnone hty
    simp only [lowerExpr, hnone, hty, except_bind_ok_eval, CGV.freshId]
  · intro s s1 e k he
    simp only [lowerStmt, he, except_bind_ok_eval, CGV.freshId]
  · intro s s1 s2 t e tv k ht he
    simp only [lowerStmt, ht, he, except_bind_ok_eval, CGV.freshId]

/-- C10 witness: the four conjuncts evaluated on concrete inputs — a call
`puts(a)` whose argument is a variable reference (the slot pointer is passed
unloaded), a fresh variable reference (producing a slot), `return a`
(loaded before the return), and `a = b` (source loaded before the store). -/
theorem c10_call_args_unloaded_witness :
    lowerExpr c10_s0 (.call (3, 3) (.symbol (2, 2) sig_puts) [.varRef 7 (.builtIn .i32)]) =
      .ok (c10_s1.freshId.1.appendInstr (.callI c10_s1.nextId "puts" [.slot 0]),
           .instr c10_s1.nextId) ∧
    lowerExpr c10_s0 (.varRef 7 (.builtIn .i32)) =
      .ok (c10_s0.freshId.1.appendInstr (.alloca c10_s0.nextId (.intTy 32)),
           .slot c10_s0.nextId) ∧
    lowerStmt c10_s0 (.ret (some (.varRef 7 (.builtIn .i32)))) =
      .ok ((c10_sx.freshId.1.appendInstr (.load c10_sx.nextId (.slot 0))).appendInstr
        (.retI (.instr c10_sx.nextId))) ∧
    lowerStmt c10_s0 (.assignment (.varRef 7 (.builtIn .i32)) (.varRef 8 (.builtIn .i32))) =
      .ok ((c10_sy.freshId.1.appendInstr (.load c10_sy.nextId (.slot 1))).appendInstr
        (.store (.instr c10_sy.nextId) (.slot 0))) :=
  ⟨c10_call_args_unloaded.1 c10_s0 c10_sf c10_s1 (3, 3) (.symbol (2, 2) sig_puts)
      [.varRef 7 (.builtIn .i32)] "puts" [.slot 0] rfl rfl,
   c10_call_args_unloaded.2.1 c10_s0 7 (.builtIn .i32) (.intTy 32) rfl rfl,
   c10_call_args_unloaded.2.2.1 c10_s0 c10_sx (.varRef 7 (.builtIn .i32)) 0 rfl,
   c10_call_args_unloaded.2.2.2 c10_s0 c10_sx c10_sy (.varRef 7 (.builtIn .i32))
      (.varRef 8 (.builtIn .i32)) (.slot 0) 1 rfl rfl⟩

end Seam
